import Mathlib

/-!
Verification of the order-management backend (THE HooK API).

The shallow embedding below follows src/backend/main.py and
src/backend/schemas.py.  Monetary amounts (Python floats) are modelled as
rationals; MongoDB ObjectId tokens are modelled as validated 24-hex-digit
strings; each MongoDB collection is modelled as an association list from
identity token to document, and the fallible endpoint handlers return
Except values whose error constructors mirror the HTTPException status
codes raised by the code.
-/

namespace Hook

/-- Error taxonomy of the HTTPExceptions raised in main.py. -/
inductive Err where
  | invalidReference
  | notFound
  | validationError
deriving DecidableEq, Repr

instance {ε α : Type} [DecidableEq ε] [DecidableEq α] : DecidableEq (Except ε α) :=
  fun a b =>
    match a, b with
    | .ok x, .ok y =>
      if h : x = y then isTrue (by rw [h])
      else isFalse (fun hh => h (Except.ok.inj hh))
    | .error x, .error y =>
      if h : x = y then isTrue (by rw [h])
      else isFalse (fun hh => h (Except.error.inj hh))
    | .ok _, .error _ => isFalse (fun hh => Except.noConfusion hh)
    | .error _, .ok _ => isFalse (fun hh => Except.noConfusion hh)

/-- HTTP status code attached to each error in main.py. -/
def Err.httpStatus : Err → Nat
  | .invalidReference => 400
  | .validationError => 400
  | .notFound => 404

/-- A character bson accepts inside a 24-character ObjectId hex string. -/
def isHexChar (c : Char) : Bool :=
  c.isDigit || (('a' ≤ c) && (c ≤ 'f')) || (('A' ≤ c) && (c ≤ 'F'))

/-- Validity of an identity token: `ObjectId(s)` succeeds exactly on
24-character hexadecimal strings. -/
def isValidOid (s : String) : Bool :=
  s.length == 24 && s.toList.all isHexChar

/-- Lower-case one hexadecimal digit. -/
def hexLowerChar (c : Char) : Char :=
  if c = 'A' then 'a' else if c = 'B' then 'b' else if c = 'C' then 'c'
  else if c = 'D' then 'd' else if c = 'E' then 'e' else if c = 'F' then 'f'
  else c

/-- Lower-case a hex string, character by character. -/
def hexLower (s : String) : String := ⟨s.data.map hexLowerChar⟩

/-- `ObjectId(s)`: parse an identity token, normalising hex case
(ObjectId comparison is on the underlying bytes, so case-insensitive). -/
def parseOid (s : String) : Option String :=
  if isValidOid s then some (hexLower s) else none

/-- schemas.Address. -/
structure Address where
  line1 : String
  line2 : Option String := none
  city : String
  state : String
  pincode : String
  landmark : Option String := none
  is_default : Bool := true
deriving DecidableEq, Repr

/-- schemas.User. -/
structure UserT where
  name : String
  email : Option String := none
  phone : String
  addresses : List Address := []
deriving DecidableEq, Repr

/-- schemas.OrderItem: one (menu_item_id, quantity) line.  quantity is a
plain int with default 1, no sign constraint. -/
structure OrderItem where
  menu_item_id : String
  quantity : Int := 1
deriving DecidableEq, Repr

/-- A stored document of the "menuitem" collection.  Mongo documents are
schemaless, so every field beyond the dedup key is optional: in
particular a stored document may lack "price" even though the schema
requires it on API inputs. -/
structure MenuDoc where
  name : String
  category : Option String := none
  description : Option String := none
  price : Option ℚ := none
  image_url : Option String := none
  veg : Option Bool := none
deriving DecidableEq, Repr

/-- schemas.MenuItem, the validated API shape. -/
structure MenuItemSchema where
  name : String
  category : String
  description : Option String := none
  price : ℚ
  image_url : Option String := none
  veg : Bool := true
deriving DecidableEq, Repr

/-- schemas.Order, the stored order document shape. -/
structure Order where
  customer_id : Option String := none
  guest_details : Option UserT := none
  items : List OrderItem
  total_amount : ℚ
  payment_status : String := "pending"
  delivery_status : String := "new"
  notes : Option String := none
deriving DecidableEq, Repr

/-- schemas.CreateOrderRequest: no total_amount field exists here. -/
structure CreateOrderRequest where
  customer_id : Option String := none
  guest_details : Option UserT := none
  items : List OrderItem
  notes : Option String := none
deriving DecidableEq, Repr

/-- schemas.UpdateOrderStatus: the partial status update. -/
structure UpdateOrderStatus where
  payment_status : Option String := none
  delivery_status : Option String := none
deriving DecidableEq, Repr

/-- The "menuitem" collection: identity token to stored document. -/
abbrev MenuStoreT := List (String × MenuDoc)

/-- The "order" collection: identity token to stored order. -/
abbrev OrderStoreT := List (String × Order)

/-- get_documents("menuitem", \x7b_id: oid\x7d, 1): lookup by identity. -/
def findMenu (store : MenuStoreT) (oid : String) : Option MenuDoc :=
  (List.find? (fun p => p.1 == oid) store).map (fun p => p.2)

/-- find? of the "order" collection by identity. -/
def findOrder (store : OrderStoreT) (oid : String) : Option Order :=
  (List.find? (fun p => p.1 == oid) store).map (fun p => p.2)

/-- Floor of a rational, computed from its normal form (the denominator
is positive, so floored integer division of num by den is the floor). -/
def ratFloor (x : ℚ) : ℤ := Int.fdiv x.num x.den

/-- Round half to even (Python round's tie-breaking) to an integer. -/
def roundHalfEven (x : ℚ) : ℤ :=
  let f : ℤ := ratFloor x
  let frac : ℚ := x - f
  if frac < 1/2 then f
  else if 1/2 < frac then f + 1
  else if f % 2 = 0 then f else f + 1

/-- round(x, 2) of main.py. -/
def round2 (x : ℚ) : ℚ := (roundHalfEven (x * 100) : ℚ) / 100

/-- Body of one iteration of compute_total's loop (main.py:82-90):
parse the menu_item_id, fetch the menu item, read its price with default
0, multiply by the supplied quantity. -/
def resolveItem (store : MenuStoreT) (it : OrderItem) : Except Err ℚ :=
  match parseOid it.menu_item_id with
  | none => .error .invalidReference
  | some oid =>
    match findMenu store oid with
    | none => .error .notFound
    | some doc => .ok ((doc.price.getD 0) * (it.quantity : ℚ))

/-- compute_total's accumulation loop over the item list. -/
def computeTotalLoop (store : MenuStoreT) : List OrderItem → ℚ → Except Err ℚ
  | [], total => .ok total
  | it :: rest, total =>
    match resolveItem store it with
    | .error e => .error e
    | .ok v => computeTotalLoop store rest (total + v)

/-- compute_total (main.py:78-91): accumulate price × quantity over the
items starting from 0.0, then round the final total to 2 places. -/
def computeTotal (store : MenuStoreT) (items : List OrderItem) : Except Err ℚ :=
  match computeTotalLoop store items 0 with
  | .error e => .error e
  | .ok total => .ok (round2 total)

/-- The raw JSON body of POST /orders as the client sent it, including a
possible attempt to supply total_amount.  CreateOrderRequest has no such
field, so pydantic validation drops it silently (default extra-ignore). -/
structure RawCreateOrder where
  customer_id : Option String := none
  guest_details : Option UserT := none
  items : List OrderItem
  notes : Option String := none
  total_amount : Option ℚ := none
deriving DecidableEq, Repr

/-- Pydantic validation of a POST /orders body against
CreateOrderRequest: the declared fields are copied, any extra field
(such as an attempted total_amount) is ignored. -/
def parseCreateOrderRequest (raw : RawCreateOrder) : CreateOrderRequest :=
  { customer_id := raw.customer_id
    guest_details := raw.guest_details
    items := raw.items
    notes := raw.notes }

/-- create_order (main.py:94-108): compute the total server-side, build
the Order document (payment_status "pending", delivery_status "new"; the
request's notes are not forwarded), insert it with a fresh identity, and
return the stored document. -/
def createOrder (menu : MenuStoreT) (orders : OrderStoreT) (fresh : String)
    (payload : CreateOrderRequest) : Except Err (OrderStoreT × Order) :=
  match computeTotal menu payload.items with
  | .error e => .error e
  | .ok total_amount =>
    let order_data : Order :=
      { customer_id := payload.customer_id
        guest_details := payload.guest_details
        items := payload.items
        total_amount := total_amount }
    .ok (orders ++ [(fresh, order_data)], order_data)

/-- find_one_and_update(\x7b_id: oid\x7d, \x7b$set: ...\x7d,
return_document=True): update the document with the given identity
in place and return the post-update document, or none. -/
def updateFirst (f : Order → Order) :
    OrderStoreT → String → Option (OrderStoreT × Order)
  | [], _ => none
  | (k, o) :: rest, oid =>
    if k == oid then some ((k, f o) :: rest, f o)
    else
      match updateFirst f rest oid with
      | none => none
      | some (st, upd) => some ((k, o) :: st, upd)

/-- The $set document built in update_order_status (main.py:126):
only the non-null fields of the partial update are applied. -/
def applyStatus (status : UpdateOrderStatus) (o : Order) : Order :=
  let o1 :=
    match status.payment_status with
    | some s => { o with payment_status := s }
    | none => o
  match status.delivery_status with
  | some s => { o1 with delivery_status := s }
  | none => o1

/-- update_order_status (main.py:119-137): parse the order id, reject an
empty update, then apply the non-null fields atomically and return the
post-update document. -/
def updateOrderStatus (store : OrderStoreT) (order_id : String)
    (status : UpdateOrderStatus) : Except Err (OrderStoreT × Order) :=
  match parseOid order_id with
  | none => .error .invalidReference
  | some oid =>
    if status.payment_status.isNone && status.delivery_status.isNone then
      .error .validationError
    else
      match updateFirst (applyStatus status) store oid with
      | none => .error .notFound
      | some (st, upd) => .ok (st, upd)

/-- confirm_payment (main.py:148-162): parse the order id and
unconditionally $set payment_status to "paid", returning the post-update
document. -/
def confirmPayment (store : OrderStoreT) (order_id : String) :
    Except Err (OrderStoreT × Order) :=
  match parseOid order_id with
  | none => .error .invalidReference
  | some oid =>
    match updateFirst (fun o => { o with payment_status := "paid" }) store oid with
    | none => .error .notFound
    | some (st, upd) => .ok (st, upd)

/-- The raw JSON body of POST /menu before pydantic validation: every
declared field may be present or absent. -/
structure RawMenuItem where
  name : Option String := none
  category : Option String := none
  description : Option String := none
  price : Option ℚ := none
  image_url : Option String := none
  veg : Option Bool := none
deriving DecidableEq, Repr

/-- Pydantic validation of a POST /menu body against schemas.MenuItem:
name, category and price are required, veg defaults to true, and no
constraint at all is placed on the numeric value of price. -/
def validateMenuItem (r : RawMenuItem) : Except Err MenuItemSchema :=
  match r.name, r.category, r.price with
  | some n, some c, some p =>
    .ok { name := n, category := c, description := r.description,
          price := p, image_url := r.image_url, veg := r.veg.getD true }
  | _, _, _ => .error .validationError

/-- db["menuitem"].find_one(\x7bname: nm\x7d): first stored document
with the given name. -/
def findByName (store : MenuStoreT) (nm : String) : Option (String × MenuDoc) :=
  List.find? (fun p => p.2.name == nm) store

/-- The curated default catalog of seed_menu (main.py:177-226). -/
def seedDefaults : List MenuDoc :=
  [ { name := "Chicken Fry", category := some "Chicken",
      description := some "Crispy, juicy chicken fry with house spice blend.",
      price := some 239, image_url := some "https://images.unsplash.com/photo-1606756790138-261b8f2c1e46?q=80&w=1200&auto=format&fit=crop", veg := some false },
    { name := "Kerala Style Chicken Roast", category := some "Chicken",
      description := some "Slow-roasted chicken with coconut oil, curry leaves, and black pepper.",
      price := some 289, image_url := some "https://images.unsplash.com/photo-1544025162-d76694265947?q=80&w=1200&auto=format&fit=crop", veg := some false },
    { name := "Kerala Fish Curry", category := some "Fish",
      description := some "Tangy red curry with kokum and coconut, homestyle.",
      price := some 299, image_url := some "https://images.unsplash.com/photo-1601050690597-9d5a27f0b046?q=80&w=1200&auto=format&fit=crop", veg := some false },
    { name := "Crispy Fish Fry", category := some "Fish",
      description := some "Marinated seer fish fried to perfection with curry leaves.",
      price := some 319, image_url := some "https://images.unsplash.com/photo-1625946634638-98a84d888fff?q=80&w=1200&auto=format&fit=crop", veg := some false },
    { name := "Green Power Salad", category := some "Salads",
      description := some "Leafy greens, cucumber, herbs, lemon-olive dressing.",
      price := some 179, image_url := some "https://images.unsplash.com/photo-1498837167922-ddd27525d352?q=80&w=1200&auto=format&fit=crop", veg := some true },
    { name := "Quinoa Chickpea Salad", category := some "Salads",
      description := some "High-protein quinoa, chickpeas, peppers, mint yogurt.",
      price := some 199, image_url := some "https://images.unsplash.com/photo-1540420773420-3366772f4999?q=80&w=1200&auto=format&fit=crop", veg := some true } ]

/-- A fresh identity token generated by the store for the n-th insert. -/
def genOid (n : Nat) : String := toString n

/-- The per-item loop of seed_menu (main.py:230-237): skip an item whose
name already exists, insert it under a fresh identity otherwise,
collecting the created documents and the skipped names in order. -/
def seedLoop : List MenuDoc → MenuStoreT → Nat →
    MenuStoreT × Nat × List (String × MenuDoc) × List String
  | [], store, next => (store, next, [], [])
  | item :: rest, store, next =>
    match findByName store item.name with
    | some _ =>
      let r := seedLoop rest store next
      (r.1, r.2.1, r.2.2.1, item.name :: r.2.2.2)
    | none =>
      let doc := (genOid next, item)
      let r := seedLoop rest (store ++ [doc]) (next + 1)
      (r.1, r.2.1, doc :: r.2.2.1, r.2.2.2)

/-- seed_menu (main.py:175-239): run the per-item loop over the curated
default catalog. -/
def seedMenu (store : MenuStoreT) (next : Nat) :
    MenuStoreT × Nat × List (String × MenuDoc) × List String :=
  seedLoop seedDefaults store next


/-! ## General lemmas about the embedding -/

/-- Casting an integer to ℚ and rounding to 2 places is the identity. -/
theorem roundHalfEven_intCast (k : ℤ) : roundHalfEven (k : ℚ) = k := by
  unfold roundHalfEven ratFloor
  rw [Rat.num_intCast, Rat.den_intCast]
  norm_num

/-- round2 is the identity on integer-valued rationals. -/
theorem round2_intCast (n : ℤ) : round2 (n : ℚ) = (n : ℚ) := by
  have h1 : ((n : ℚ) * 100) = ((n * 100 : ℤ) : ℚ) := by push_cast; ring
  rw [round2, h1, roundHalfEven_intCast]
  push_cast
  field_simp

/-- An order item resolves when its id parses, the referenced menu item
is stored, and that document carries a price. -/
def itemResolves (store : MenuStoreT) (it : OrderItem) : Bool :=
  match parseOid it.menu_item_id with
  | none => false
  | some oid =>
    match findMenu store oid with
    | none => false
    | some doc => doc.price.isSome

/-- The amount one line item contributes per the specification: the
referenced MenuItem's stored price times the supplied quantity. -/
def specItemAmount (store : MenuStoreT) (it : OrderItem) : ℚ :=
  match parseOid it.menu_item_id with
  | none => 0
  | some oid =>
    match findMenu store oid with
    | none => 0
    | some doc => (doc.price.getD 0) * (it.quantity : ℚ)

theorem resolveItem_of_resolves (store : MenuStoreT) (it : OrderItem)
    (h : itemResolves store it = true) :
    resolveItem store it = .ok (specItemAmount store it) := by
  cases hp : parseOid it.menu_item_id with
  | none => simp [itemResolves, hp] at h
  | some oid =>
    cases hf : findMenu store oid with
    | none => simp [itemResolves, hp, hf] at h
    | some doc => simp [resolveItem, specItemAmount, hp, hf]

theorem computeTotalLoop_ok (store : MenuStoreT) (items : List OrderItem)
    (h : ∀ it ∈ items, itemResolves store it = true) (acc : ℚ) :
    computeTotalLoop store items acc
      = .ok (acc + (items.map (specItemAmount store)).sum) := by
  induction items generalizing acc with
  | nil => simp [computeTotalLoop]
  | cons it rest ih =>
    have hit : itemResolves store it = true := h it (List.mem_cons_self it rest)
    have ih' := ih (fun x hx => h x (List.mem_cons_of_mem it hx))
      (acc + specItemAmount store it)
    simp [computeTotalLoop, resolveItem_of_resolves store it hit, ih', add_assoc]

/-! ## Concrete fixtures used by the claims -/

/-- A menu store holding two items priced 239 and 299. -/
def exampleMenu : MenuStoreT :=
  [("aaaaaaaaaaaaaaaaaaaaaaaa", { name := "Chicken Fry", price := some 239 }),
   ("bbbbbbbbbbbbbbbbbbbbbbbb", { name := "Kerala Fish Curry", price := some 299 })]

/-- Two line items: the 239 item at quantity 2, the 299 item at 1. -/
def exampleItems : List OrderItem :=
  [{ menu_item_id := "aaaaaaaaaaaaaaaaaaaaaaaa", quantity := 2 },
   { menu_item_id := "bbbbbbbbbbbbbbbbbbbbbbbb", quantity := 1 }]

/-! ## C1 -/

/-- C1: for every item list (quantities used as supplied, zero or
negative included) whose menu_item_id tokens all parse and resolve to
stored menu items, compute_total returns the sum of price × quantity
rounded to 2 places; the empty item list yields 0.0 without error, and
two items priced 239 and 299 at quantities 2 and 1 yield 777.00. -/
theorem C1_computeTotal_sum (store : MenuStoreT) (items : List OrderItem)
    (h : ∀ it ∈ items, itemResolves store it = true) :
    computeTotal store items
      = .ok (round2 ((items.map (specItemAmount store)).sum)) ∧
    computeTotal store [] = .ok 0 ∧
    computeTotal exampleMenu exampleItems = .ok 777 := by
  have h0 : round2 (0 : ℚ) = 0 := by simpa using round2_intCast 0
  refine ⟨?_, ?_, ?_⟩
  · simp [computeTotal, computeTotalLoop_ok store items h 0]
  · simp [computeTotal, computeTotalLoop, h0]
  · have hres : ∀ it ∈ exampleItems, itemResolves exampleMenu it = true := by
      decide
    have hloop := computeTotalLoop_ok exampleMenu exampleItems hres 0
    have hs1 : specItemAmount exampleMenu
        { menu_item_id := "aaaaaaaaaaaaaaaaaaaaaaaa", quantity := 2 }
        = (239 : ℚ) * ((2 : ℤ) : ℚ) := rfl
    have hs2 : specItemAmount exampleMenu
        { menu_item_id := "bbbbbbbbbbbbbbbbbbbbbbbb", quantity := 1 }
        = (299 : ℚ) * ((1 : ℤ) : ℚ) := rfl
    have h777 := round2_intCast 777
    unfold computeTotal
    rw [hloop]
    simp only [Except.ok.injEq, exampleItems, List.map_cons, List.map_nil,
      List.sum_cons, List.sum_nil, hs1, hs2]
    push_cast
    norm_num
    exact_mod_cast h777

/-- Witness for C1 at the concrete two-item store. -/
theorem C1_computeTotal_sum_witness :
    computeTotal exampleMenu exampleItems
      = .ok (round2 ((exampleItems.map (specItemAmount exampleMenu)).sum)) ∧
    computeTotal exampleMenu [] = .ok 0 := by
  have h := C1_computeTotal_sum exampleMenu exampleItems (by decide)
  exact ⟨h.1, h.2.1⟩

/-! ## C5 and C9: compute_total error behaviour -/

theorem resolveItem_error_cases (store : MenuStoreT) (it : OrderItem) (e : Err)
    (h : resolveItem store it = .error e) :
    (e = .invalidReference ∧ parseOid it.menu_item_id = none) ∨
    (e = .notFound ∧ ∃ oid, parseOid it.menu_item_id = some oid ∧
      findMenu store oid = none) := by
  cases hp : parseOid it.menu_item_id with
  | none =>
    left
    refine ⟨?_, rfl⟩
    simp [resolveItem, hp] at h
    exact h.symm
  | some oid =>
    cases hf : findMenu store oid with
    | none =>
      right
      refine ⟨?_, oid, rfl, hf⟩
      simp [resolveItem, hp, hf] at h
      exact h.symm
    | some doc =>
      simp [resolveItem, hp, hf] at h

theorem computeTotalLoop_error (store : MenuStoreT) :
    ∀ (items : List OrderItem) (acc : ℚ) (e : Err),
      computeTotalLoop store items acc = .error e →
      ∃ it ∈ items, resolveItem store it = .error e := by
  intro items
  induction items with
  | nil => intro acc e h; simp [computeTotalLoop] at h
  | cons it rest ih =>
    intro acc e h
    cases hr : resolveItem store it with
    | error e0 =>
      rw [computeTotalLoop, hr] at h
      simp at h
      exact ⟨it, List.mem_cons_self it rest, h ▸ hr⟩
    | ok v =>
      rw [computeTotalLoop, hr] at h
      simp at h
      obtain ⟨it2, hm, he⟩ := ih (acc + v) e h
      exact ⟨it2, List.mem_cons_of_mem it hm, he⟩

/-- C5: within compute_total, an item whose menu_item_id does not parse
as an identity token fails with InvalidReference (HTTP 400); a
well-formed id with no stored MenuItem fails with NotFound (HTTP 404);
and compute_total fails with no other error kinds for any cause. -/
theorem C5_computeTotal_error_kinds (store : MenuStoreT) (it : OrderItem)
    (items : List OrderItem) :
    (parseOid it.menu_item_id = none →
      resolveItem store it = .error .invalidReference ∧
      Err.httpStatus .invalidReference = 400) ∧
    (∀ oid, parseOid it.menu_item_id = some oid → findMenu store oid = none →
      resolveItem store it = .error .notFound ∧
      Err.httpStatus .notFound = 404) ∧
    (∀ e, computeTotal store items = .error e →
      (e = .invalidReference ∧
        ∃ it2 ∈ items, parseOid it2.menu_item_id = none) ∨
      (e = .notFound ∧ ∃ it2 ∈ items, ∃ oid,
        parseOid it2.menu_item_id = some oid ∧ findMenu store oid = none)) := by
  refine ⟨?_, ?_, ?_⟩
  · intro hp
    exact ⟨by simp [resolveItem, hp], rfl⟩
  · intro oid hp hf
    exact ⟨by simp [resolveItem, hp, hf], rfl⟩
  · intro e h
    have hl : computeTotalLoop store items 0 = .error e := by
      unfold computeTotal at h
      cases hc : computeTotalLoop store items 0 with
      | error e0 => rw [hc] at h; simp at h; rw [h]
      | ok v => rw [hc] at h; simp at h
    obtain ⟨it2, hm, he⟩ := computeTotalLoop_error store items 0 e hl
    rcases resolveItem_error_cases store it2 e he with ⟨he1, hp⟩ | ⟨he1, oid, hp, hf⟩
    · exact Or.inl ⟨he1, it2, hm, hp⟩
    · exact Or.inr ⟨he1, it2, hm, oid, hp, hf⟩

/-- Witness for C5: a malformed token yields InvalidReference, a
well-formed but unknown token yields NotFound. -/
theorem C5_computeTotal_error_kinds_witness :
    resolveItem exampleMenu { menu_item_id := "zz", quantity := 1 }
      = .error .invalidReference ∧
    resolveItem exampleMenu
      { menu_item_id := "cccccccccccccccccccccccc", quantity := 1 }
      = .error .notFound := by
  constructor
  · exact ((C5_computeTotal_error_kinds exampleMenu
      { menu_item_id := "zz", quantity := 1 } []).1 (by decide)).1
  · exact ((C5_computeTotal_error_kinds exampleMenu
      { menu_item_id := "cccccccccccccccccccccccc", quantity := 1 } []).2.1
      "cccccccccccccccccccccccc" (by decide) (by decide)).1

/-! ## C9 -/

/-- A store whose single document has no "price" field. -/
def noPriceMenu : MenuStoreT :=
  [("dddddddddddddddddddddddd", { name := "Mystery Special" })]

/-- C9: a stored menu document with no "price" field does not make
compute_total fail: its price is read as 0, so the item contributes 0. -/
theorem C9_missing_price_defaults_zero (store : MenuStoreT) (it : OrderItem)
    (oid : String) (doc : MenuDoc)
    (hp : parseOid it.menu_item_id = some oid)
    (hf : findMenu store oid = some doc)
    (hprice : doc.price = none) :
    resolveItem store it = .ok 0 ∧ computeTotal store [it] = .ok 0 := by
  have h1 : resolveItem store it = .ok 0 := by
    simp [resolveItem, hp, hf, hprice]
  refine ⟨h1, ?_⟩
  have h0 : round2 (0 : ℚ) = 0 := by simpa using round2_intCast 0
  simp [computeTotal, computeTotalLoop, h1, h0]

/-- Witness for C9 at a concrete price-less document. -/
theorem C9_missing_price_defaults_zero_witness :
    resolveItem noPriceMenu
      { menu_item_id := "dddddddddddddddddddddddd", quantity := 3 } = .ok 0 ∧
    computeTotal noPriceMenu
      [{ menu_item_id := "dddddddddddddddddddddddd", quantity := 3 }]
      = .ok 0 :=
  C9_missing_price_defaults_zero noPriceMenu
    { menu_item_id := "dddddddddddddddddddddddd", quantity := 3 }
    "dddddddddddddddddddddddd" { name := "Mystery Special" }
    (by decide) (by decide) rfl

/-! ## Lemmas about find_one_and_update -/

theorem updateFirst_eq_some (f : Order → Order) :
    ∀ (store : OrderStoreT) (oid : String) (st : OrderStoreT) (upd : Order),
      updateFirst f store oid = some (st, upd) →
      ∃ old, findOrder store oid = some old ∧ upd = f old ∧
        findOrder st oid = some upd := by
  intro store
  induction store with
  | nil => intro oid st upd h; simp [updateFirst] at h
  | cons p rest ih =>
    intro oid st upd h
    obtain ⟨k, o⟩ := p
    cases hk : (k == oid) with
    | true =>
      rw [updateFirst, if_pos hk] at h
      simp only [Option.some.injEq, Prod.mk.injEq] at h
      obtain ⟨hst, hupd⟩ := h
      refine ⟨o, ?_, hupd.symm, ?_⟩
      · simp [findOrder, List.find?, hk]
      · rw [← hst, ← hupd]
        simp [findOrder, List.find?, hk]
    | false =>
      rw [updateFirst, if_neg (by simp [hk])] at h
      cases hu : updateFirst f rest oid with
      | none => rw [hu] at h; simp at h
      | some r =>
        obtain ⟨st0, upd0⟩ := r
        rw [hu] at h
        simp only [Option.some.injEq, Prod.mk.injEq] at h
        obtain ⟨hst, hupd⟩ := h
        obtain ⟨old, h1, h2, h3⟩ := ih oid st0 upd0 hu
        refine ⟨old, ?_, by rw [hupd] at h2; exact h2, ?_⟩
        · simp [findOrder, List.find?, hk]
          simpa [findOrder] using h1
        · rw [← hst, ← hupd]
          simp [findOrder, List.find?, hk]
          simpa [findOrder] using h3

theorem updateFirst_of_found (f : Order → Order) :
    ∀ (store : OrderStoreT) (oid : String) (old : Order),
      findOrder store oid = some old →
      ∃ st, updateFirst f store oid = some (st, f old) := by
  intro store
  induction store with
  | nil => intro oid old h; simp [findOrder] at h
  | cons p rest ih =>
    intro oid old h
    obtain ⟨k, o⟩ := p
    cases hk : (k == oid) with
    | true =>
      have ho : o = old := by
        simpa [findOrder, List.find?, hk] using h
      refine ⟨(k, f o) :: rest, ?_⟩
      rw [updateFirst, if_pos hk, ho]
    | false =>
      have h' : findOrder rest oid = some old := by
        simpa [findOrder, List.find?, hk] using h
      obtain ⟨st0, hst0⟩ := ih oid old h'
      refine ⟨(k, o) :: st0, ?_⟩
      rw [updateFirst, if_neg (by simp [hk]), hst0]

theorem updateOrderStatus_ok (store : OrderStoreT) (order_id : String)
    (u : UpdateOrderStatus) (st : OrderStoreT) (upd : Order)
    (h : updateOrderStatus store order_id u = .ok (st, upd)) :
    ∃ oid old, parseOid order_id = some oid ∧ findOrder store oid = some old ∧
      upd = applyStatus u old ∧ findOrder st oid = some upd := by
  cases hp : parseOid order_id with
  | none =>
    unfold updateOrderStatus at h
    rw [hp] at h
    simp at h
  | some oid =>
    unfold updateOrderStatus at h
    simp only [hp] at h
    by_cases hne : (u.payment_status.isNone && u.delivery_status.isNone) = true
    · rw [if_pos hne] at h; simp at h
    · rw [if_neg hne] at h
      cases hu : updateFirst (applyStatus u) store oid with
      | none => rw [hu] at h; simp at h
      | some r =>
        obtain ⟨st0, upd0⟩ := r
        rw [hu] at h
        simp only [Except.ok.injEq, Prod.mk.injEq] at h
        obtain ⟨hst, hupd⟩ := h
        obtain ⟨old, h1, h2, h3⟩ := updateFirst_eq_some (applyStatus u) store oid st0 upd0 hu
        exact ⟨oid, old, rfl, h1, by rw [← hupd]; exact h2, by rw [← hst, ← hupd]; exact h3⟩

/-! ## C3 -/

/-- C3: whenever confirm_payment succeeds on a stored order, the
returned and stored order is exactly the prior order with
payment_status set to "paid" — regardless of the prior value
(including "failed"), and never any other value. -/
theorem C3_confirmPayment_always_paid (store : OrderStoreT) (order_id : String)
    (st : OrderStoreT) (upd : Order)
    (h : confirmPayment store order_id = .ok (st, upd)) :
    upd.payment_status = "paid" ∧
    ∃ oid old, parseOid order_id = some oid ∧ findOrder store oid = some old ∧
      upd = { old with payment_status := "paid" } ∧
      findOrder st oid = some upd := by
  cases hp : parseOid order_id with
  | none =>
    unfold confirmPayment at h
    rw [hp] at h
    simp at h
  | some oid =>
    unfold confirmPayment at h
    simp only [hp] at h
    cases hu : updateFirst (fun o => { o with payment_status := "paid" }) store oid with
    | none => rw [hu] at h; simp at h
    | some r =>
      obtain ⟨st0, upd0⟩ := r
      rw [hu] at h
      simp only [Except.ok.injEq, Prod.mk.injEq] at h
      obtain ⟨hst, hupd⟩ := h
      obtain ⟨old, h1, h2, h3⟩ :=
        updateFirst_eq_some (fun o => { o with payment_status := "paid" })
          store oid st0 upd0 hu
      refine ⟨?_, oid, old, rfl, h1, ?_, ?_⟩
      · rw [← hupd, h2]
      · rw [← hupd]; exact h2
      · rw [← hst, ← hupd]; exact h3

/-- An order whose payment previously failed. -/
def failedOrder : Order :=
  { items := [], total_amount := 100, payment_status := "failed",
    delivery_status := "preparing", notes := some "ring the bell" }

/-- A one-order store holding the failed order. -/
def exampleOrders : OrderStoreT := [("eeeeeeeeeeeeeeeeeeeeeeee", failedOrder)]

/-- Witness for C3: confirming payment on the "failed" order stores
"paid". -/
theorem C3_confirmPayment_always_paid_witness :
    ({ failedOrder with payment_status := "paid" } : Order).payment_status
        = "paid" ∧
    ∃ oid old, parseOid "eeeeeeeeeeeeeeeeeeeeeeee" = some oid ∧
      findOrder exampleOrders oid = some old ∧
      ({ failedOrder with payment_status := "paid" } : Order)
        = { old with payment_status := "paid" } ∧
      findOrder [("eeeeeeeeeeeeeeeeeeeeeeee",
          { failedOrder with payment_status := "paid" })] oid
        = some { failedOrder with payment_status := "paid" } :=
  C3_confirmPayment_always_paid exampleOrders "eeeeeeeeeeeeeeeeeeeeeeee"
    [("eeeeeeeeeeeeeeeeeeeeeeee", { failedOrder with payment_status := "paid" })]
    { failedOrder with payment_status := "paid" } (by decide)

/-! ## C4 -/

/-- C4: when update_order_status succeeds with exactly one status field
set, only that field changes: the other status field and every other
field of the stored order keep their previous values. -/
theorem C4_updateStatus_one_field_frame (store : OrderStoreT)
    (order_id : String) (s : String) (st : OrderStoreT) (upd : Order) :
    (updateOrderStatus store order_id
        { payment_status := some s, delivery_status := none } = .ok (st, upd) →
      ∃ oid old, parseOid order_id = some oid ∧ findOrder store oid = some old ∧
        upd.payment_status = s ∧ upd.delivery_status = old.delivery_status ∧
        upd.customer_id = old.customer_id ∧
        upd.guest_details = old.guest_details ∧
        upd.items = old.items ∧ upd.total_amount = old.total_amount ∧
        upd.notes = old.notes ∧ findOrder st oid = some upd) ∧
    (updateOrderStatus store order_id
        { payment_status := none, delivery_status := some s } = .ok (st, upd) →
      ∃ oid old, parseOid order_id = some oid ∧ findOrder store oid = some old ∧
        upd.delivery_status = s ∧ upd.payment_status = old.payment_status ∧
        upd.customer_id = old.customer_id ∧
        upd.guest_details = old.guest_details ∧
        upd.items = old.items ∧ upd.total_amount = old.total_amount ∧
        upd.notes = old.notes ∧ findOrder st oid = some upd) := by
  constructor
  · intro h
    obtain ⟨oid, old, hp, hf, hupd, hst⟩ :=
      updateOrderStatus_ok store order_id _ st upd h
    refine ⟨oid, old, hp, hf, ?_, ?_, ?_, ?_, ?_, ?_, ?_, hst⟩ <;>
      simp [hupd, applyStatus]
  · intro h
    obtain ⟨oid, old, hp, hf, hupd, hst⟩ :=
      updateOrderStatus_ok store order_id _ st upd h
    refine ⟨oid, old, hp, hf, ?_, ?_, ?_, ?_, ?_, ?_, ?_, hst⟩ <;>
      simp [hupd, applyStatus]

/-- Witness for C4 on the concrete one-order store, in both directions. -/
theorem C4_updateStatus_one_field_frame_witness :
    (∃ oid old, parseOid "eeeeeeeeeeeeeeeeeeeeeeee" = some oid ∧
      findOrder exampleOrders oid = some old ∧
      ({ failedOrder with payment_status := "paid" } : Order).payment_status
          = "paid" ∧
      ({ failedOrder with payment_status := "paid" } : Order).delivery_status
          = old.delivery_status ∧
      ({ failedOrder with payment_status := "paid" } : Order).customer_id
          = old.customer_id ∧
      ({ failedOrder with payment_status := "paid" } : Order).guest_details
          = old.guest_details ∧
      ({ failedOrder with payment_status := "paid" } : Order).items
          = old.items ∧
      ({ failedOrder with payment_status := "paid" } : Order).total_amount
          = old.total_amount ∧
      ({ failedOrder with payment_status := "paid" } : Order).notes
          = old.notes ∧
      findOrder [("eeeeeeeeeeeeeeeeeeeeeeee",
          { failedOrder with payment_status := "paid" })] oid
        = some { failedOrder with payment_status := "paid" }) ∧
    (∃ oid old, parseOid "eeeeeeeeeeeeeeeeeeeeeeee" = some oid ∧
      findOrder exampleOrders oid = some old ∧
      ({ failedOrder with delivery_status := "delivered" } : Order).delivery_status
          = "delivered" ∧
      ({ failedOrder with delivery_status := "delivered" } : Order).payment_status
          = old.payment_status ∧
      ({ failedOrder with delivery_status := "delivered" } : Order).customer_id
          = old.customer_id ∧
      ({ failedOrder with delivery_status := "delivered" } : Order).guest_details
          = old.guest_details ∧
      ({ failedOrder with delivery_status := "delivered" } : Order).items
          = old.items ∧
      ({ failedOrder with delivery_status := "delivered" } : Order).total_amount
          = old.total_amount ∧
      ({ failedOrder with delivery_status := "delivered" } : Order).notes
          = old.notes ∧
      findOrder [("eeeeeeeeeeeeeeeeeeeeeeee",
          { failedOrder with delivery_status := "delivered" })] oid
        = some { failedOrder with delivery_status := "delivered" }) :=
  ⟨(C4_updateStatus_one_field_frame exampleOrders "eeeeeeeeeeeeeeeeeeeeeeee"
      "paid"
      [("eeeeeeeeeeeeeeeeeeeeeeee", { failedOrder with payment_status := "paid" })]
      { failedOrder with payment_status := "paid" }).1 (by decide),
   (C4_updateStatus_one_field_frame exampleOrders "eeeeeeeeeeeeeeeeeeeeeeee"
      "delivered"
      [("eeeeeeeeeeeeeeeeeeeeeeee", { failedOrder with delivery_status := "delivered" })]
      { failedOrder with delivery_status := "delivered" }).2 (by decide)⟩

/-! ## C7 -/

/-- C7 counterexample: with a malformed order_id (here "x") and both
fields absent, update_order_status fails with InvalidReference ("Invalid
order id"), not with ValidationError ("No updates provided"). -/
theorem C7_counterexample_invalid_id_first :
    updateOrderStatus [] "x"
      { payment_status := none, delivery_status := none }
      = .error .invalidReference ∧
    Err.invalidReference ≠ Err.validationError := by
  exact ⟨by decide, by decide⟩

/-- C7 amended: with both fields absent, update_order_status always
fails before any store update — with ValidationError (HTTP 400) when
order_id is a well-formed identity token, and with InvalidReference
(HTTP 400) when it is malformed; it never returns a stored order. -/
theorem C7_empty_update_rejected (store : OrderStoreT) (order_id : String) :
    (∀ oid, parseOid order_id = some oid →
      updateOrderStatus store order_id
        { payment_status := none, delivery_status := none }
        = .error .validationError) ∧
    (parseOid order_id = none →
      updateOrderStatus store order_id
        { payment_status := none, delivery_status := none }
        = .error .invalidReference) ∧
    (∀ e, updateOrderStatus store order_id
        { payment_status := none, delivery_status := none } = .error e →
      e.httpStatus = 400) ∧
    (∀ r, updateOrderStatus store order_id
        { payment_status := none, delivery_status := none } ≠ .ok r) := by
  cases hp : parseOid order_id with
  | none =>
    have hrun : updateOrderStatus store order_id
        { payment_status := none, delivery_status := none }
        = .error .invalidReference := by
      unfold updateOrderStatus
      simp only [hp]
    refine ⟨?_, fun _ => hrun, ?_, ?_⟩
    · intro oid hoid
      exact absurd hoid (by simp [hp])
    · intro e he
      have h2 := hrun.symm.trans he
      simp only [Except.error.injEq] at h2
      rw [← h2]
      rfl
    · intro r hr
      have h2 := hrun.symm.trans hr
      simp at h2
  | some oid =>
    have hrun : updateOrderStatus store order_id
        { payment_status := none, delivery_status := none }
        = .error .validationError := by
      unfold updateOrderStatus
      simp only [hp]
      rfl
    refine ⟨fun _ _ => hrun, ?_, ?_, ?_⟩
    · intro hno
      exact absurd hno (by simp [hp])
    · intro e he
      have h2 := hrun.symm.trans he
      simp only [Except.error.injEq] at h2
      rw [← h2]
      rfl
    · intro r hr
      have h2 := hrun.symm.trans hr
      simp at h2

/-- Witness for the amended C7 with a well-formed and a malformed id. -/
theorem C7_empty_update_rejected_witness :
    updateOrderStatus [] "aaaaaaaaaaaaaaaaaaaaaaaa"
      { payment_status := none, delivery_status := none }
      = .error .validationError ∧
    updateOrderStatus [] "x"
      { payment_status := none, delivery_status := none }
      = .error .invalidReference :=
  ⟨(C7_empty_update_rejected [] "aaaaaaaaaaaaaaaaaaaaaaaa").1
      "aaaaaaaaaaaaaaaaaaaaaaaa" (by decide),
   (C7_empty_update_rejected [] "x").2.1 (by decide)⟩

/-! ## C10 -/

/-- C10: update_order_status performs no enum validation: any string,
however far outside the documented status vocabularies, is accepted and
stored verbatim in the order. -/
theorem C10_no_enum_validation (store : OrderStoreT) (order_id : String)
    (oid : String) (old : Order) (s : String)
    (hp : parseOid order_id = some oid)
    (hf : findOrder store oid = some old) :
    (∃ st, updateOrderStatus store order_id
        { payment_status := some s, delivery_status := none }
        = .ok (st, { old with payment_status := s }) ∧
      findOrder st oid = some { old with payment_status := s }) ∧
    (∃ st, updateOrderStatus store order_id
        { payment_status := none, delivery_status := some s }
        = .ok (st, { old with delivery_status := s }) ∧
      findOrder st oid = some { old with delivery_status := s }) := by
  constructor
  · obtain ⟨st0, hst0⟩ := updateFirst_of_found
      (applyStatus { payment_status := some s, delivery_status := none })
      store oid old hf
    obtain ⟨old2, h1, h2, h3⟩ := updateFirst_eq_some _ store oid st0 _ hst0
    refine ⟨st0, ?_, h3⟩
    unfold updateOrderStatus
    simp only [hp]
    rw [hst0]
    simp [applyStatus]
  · obtain ⟨st0, hst0⟩ := updateFirst_of_found
      (applyStatus { payment_status := none, delivery_status := some s })
      store oid old hf
    obtain ⟨old2, h1, h2, h3⟩ := updateFirst_eq_some _ store oid st0 _ hst0
    refine ⟨st0, ?_, h3⟩
    unfold updateOrderStatus
    simp only [hp]
    rw [hst0]
    simp [applyStatus]

/-- Witness for C10 with a status string outside both vocabularies. -/
theorem C10_no_enum_validation_witness :
    (∃ st, updateOrderStatus exampleOrders "eeeeeeeeeeeeeeeeeeeeeeee"
        { payment_status := some "not-a-real-status", delivery_status := none }
        = .ok (st, { failedOrder with payment_status := "not-a-real-status" }) ∧
      findOrder st "eeeeeeeeeeeeeeeeeeeeeeee"
        = some { failedOrder with payment_status := "not-a-real-status" }) ∧
    (∃ st, updateOrderStatus exampleOrders "eeeeeeeeeeeeeeeeeeeeeeee"
        { payment_status := none, delivery_status := some "not-a-real-status" }
        = .ok (st, { failedOrder with delivery_status := "not-a-real-status" }) ∧
      findOrder st "eeeeeeeeeeeeeeeeeeeeeeee"
        = some { failedOrder with delivery_status := "not-a-real-status" }) :=
  C10_no_enum_validation exampleOrders "eeeeeeeeeeeeeeeeeeeeeeee"
    "eeeeeeeeeeeeeeeeeeeeeeee" failedOrder "not-a-real-status"
    (by decide) (by decide)

/-! ## C2 -/

/-- C2: the stored order's total_amount always equals the server-computed
compute_total of the request's items, and a client-supplied total_amount
is never accepted: two raw creation requests identical except for an
attempted total_amount override produce identical created orders. -/
theorem C2_total_server_computed (menu : MenuStoreT) (orders : OrderStoreT)
    (fresh : String) (raw1 raw2 : RawCreateOrder)
    (h1 : raw1.customer_id = raw2.customer_id)
    (h2 : raw1.guest_details = raw2.guest_details)
    (h3 : raw1.items = raw2.items)
    (h4 : raw1.notes = raw2.notes) :
    createOrder menu orders fresh (parseCreateOrderRequest raw1)
      = createOrder menu orders fresh (parseCreateOrderRequest raw2) ∧
    (∀ st ord,
      createOrder menu orders fresh (parseCreateOrderRequest raw1)
        = .ok (st, ord) →
      computeTotal menu raw1.items = .ok ord.total_amount ∧
      (fresh, ord) ∈ st) := by
  have hreq : parseCreateOrderRequest raw1 = parseCreateOrderRequest raw2 := by
    simp [parseCreateOrderRequest, h1, h2, h3, h4]
  refine ⟨by rw [hreq], ?_⟩
  intro st ord h
  unfold createOrder at h
  cases hc : computeTotal menu (parseCreateOrderRequest raw1).items with
  | error e => rw [hc] at h; simp at h
  | ok total =>
    rw [hc] at h
    simp only [Except.ok.injEq, Prod.mk.injEq] at h
    obtain ⟨hst, hord⟩ := h
    have hitems : (parseCreateOrderRequest raw1).items = raw1.items := rfl
    constructor
    · rw [← hitems, hc, ← hord]
    · rw [← hst, ← hord]
      simp

/-- Two raw bodies identical except that the second attempts to supply
total_amount := 1. -/
def rawOrder1 : RawCreateOrder := { items := exampleItems }

/-- The override attempt. -/
def rawOrder2 : RawCreateOrder := { items := exampleItems, total_amount := some 1 }

/-- Witness for C2: the override attempt changes nothing and the stored
total is the server-computed one. -/
theorem C2_total_server_computed_witness :
    createOrder exampleMenu [] "ffffffffffffffffffffffff"
        (parseCreateOrderRequest rawOrder1)
      = createOrder exampleMenu [] "ffffffffffffffffffffffff"
        (parseCreateOrderRequest rawOrder2) ∧
    (∀ st ord,
      createOrder exampleMenu [] "ffffffffffffffffffffffff"
          (parseCreateOrderRequest rawOrder1)
        = .ok (st, ord) →
      computeTotal exampleMenu rawOrder1.items = .ok ord.total_amount ∧
      ("ffffffffffffffffffffffff", ord) ∈ st) :=
  C2_total_server_computed exampleMenu [] "ffffffffffffffffffffffff"
    rawOrder1 rawOrder2 rfl rfl rfl rfl

/-! ## C8 -/

/-- C8 counterexample: a MenuItem payload with a negative price is not
rejected by schema validation — it validates successfully with the
negative price kept. -/
theorem C8_counterexample_negative_price_accepted :
    (validateMenuItem
        { name := some "Bogus Deal", category := some "Chicken",
          price := some (-5) }).isOk = true ∧
    validateMenuItem
        { name := some "Bogus Deal", category := some "Chicken",
          price := some (-5) }
      = .ok { name := "Bogus Deal", category := "Chicken", price := -5 } :=
  ⟨rfl, rfl⟩

/-- C8 amended: schema validation of MenuItem requires name, category
and price to be present, but places no constraint on the numeric value
of price: any price, negative included, is accepted verbatim. -/
theorem C8_price_unconstrained (n c : String) (d : Option String) (p : ℚ)
    (iu : Option String) (v : Option Bool) :
    validateMenuItem
        { name := some n, category := some c, description := d,
          price := some p, image_url := iu, veg := v }
      = .ok { name := n, category := c, description := d, price := p,
              image_url := iu, veg := v.getD true } := rfl

/-! ## C6: seeding lemmas -/

theorem findByName_isSome_iff (store : MenuStoreT) (nm : String) :
    (findByName store nm).isSome ↔ ∃ p ∈ store, p.2.name = nm := by
  unfold findByName
  rw [List.find?_isSome]
  constructor
  · rintro ⟨p, hm, hp⟩
    exact ⟨p, hm, by simpa using hp⟩
  · rintro ⟨p, hm, hp⟩
    exact ⟨p, hm, by simpa using hp⟩

theorem findByName_isSome_append (store l : MenuStoreT) (nm : String)
    (h : (findByName store nm).isSome = true) :
    (findByName (store ++ l) nm).isSome = true := by
  rw [findByName_isSome_iff] at h ⊢
  obtain ⟨p, hm, hp⟩ := h
  exact ⟨p, List.mem_append_left l hm, hp⟩

theorem seedLoop_store_extends :
    ∀ (ds : List MenuDoc) (store : MenuStoreT) (next : Nat),
      ∃ l, (seedLoop ds store next).1 = store ++ l := by
  intro ds
  induction ds with
  | nil => intro store next; exact ⟨[], by simp [seedLoop]⟩
  | cons item rest ih =>
    intro store next
    cases hfb : findByName store item.name with
    | some p =>
      obtain ⟨l, hl⟩ := ih store next
      exact ⟨l, by simp [seedLoop, hfb, hl]⟩
    | none =>
      obtain ⟨l, hl⟩ := ih (store ++ [(genOid next, item)]) (next + 1)
      refine ⟨(genOid next, item) :: l, ?_⟩
      simp only [seedLoop, hfb, hl, List.append_assoc, List.singleton_append]

theorem seedLoop_names_present :
    ∀ (ds : List MenuDoc) (store : MenuStoreT) (next : Nat) (d : MenuDoc),
      d ∈ ds → (findByName (seedLoop ds store next).1 d.name).isSome = true := by
  intro ds
  induction ds with
  | nil => intro store next d hd; simp at hd
  | cons item rest ih =>
    intro store next d hd
    cases hfb : findByName store item.name with
    | some p =>
      have hres : (seedLoop (item :: rest) store next).1
          = (seedLoop rest store next).1 := by
        simp [seedLoop, hfb]
      rw [hres]
      rcases List.mem_cons.mp hd with hd1 | hd2
      · obtain ⟨l, hl⟩ := seedLoop_store_extends rest store next
        rw [hl, hd1]
        exact findByName_isSome_append store l item.name
          (by rw [hfb]; rfl)
      · exact ih store next d hd2
    | none =>
      have hres : (seedLoop (item :: rest) store next).1
          = (seedLoop rest (store ++ [(genOid next, item)]) (next + 1)).1 := by
        simp [seedLoop, hfb]
      rw [hres]
      rcases List.mem_cons.mp hd with hd1 | hd2
      · obtain ⟨l, hl⟩ :=
          seedLoop_store_extends rest (store ++ [(genOid next, item)]) (next + 1)
        rw [hl, hd1]
        apply findByName_isSome_append
        rw [findByName_isSome_iff]
        exact ⟨(genOid next, item),
          List.mem_append_right store (List.mem_singleton_self _), rfl⟩
      · exact ih (store ++ [(genOid next, item)]) (next + 1) d hd2

theorem seedLoop_all_present_skips :
    ∀ (ds : List MenuDoc) (store : MenuStoreT) (next : Nat),
      (∀ d ∈ ds, (findByName store d.name).isSome = true) →
      seedLoop ds store next
        = (store, next, [], ds.map (fun d => d.name)) := by
  intro ds
  induction ds with
  | nil => intro store next _; simp [seedLoop]
  | cons item rest ih =>
    intro store next h
    have hitem := h item (List.mem_cons_self item rest)
    cases hfb : findByName store item.name with
    | none => rw [hfb] at hitem; simp at hitem
    | some p =>
      have hrest := ih store next (fun d hd => h d (List.mem_cons_of_mem item hd))
      simp [seedLoop, hfb, hrest]

/-- C6: running seed_menu twice with no intervening store mutation makes
the second run a no-op: it creates nothing, skips every candidate name,
and leaves the store (and its set of MenuItem names) exactly as the
first run left it. -/
theorem C6_seed_menu_idempotent (store : MenuStoreT) (next : Nat) :
    seedMenu (seedMenu store next).1 (seedMenu store next).2.1
      = ((seedMenu store next).1, (seedMenu store next).2.1, [],
          seedDefaults.map (fun d => d.name)) := by
  apply seedLoop_all_present_skips
  intro d hd
  exact seedLoop_names_present seedDefaults store next d hd

end Hook
